import Mathlib

/-!
Shallow embedding of the E2EE relay server (`server.js`).

The server keeps two in-memory tables: `publicKeys` (userId → base64 public
key, behind two HTTP endpoints) and `clients` (userId → WebSocket, the
connection registry used by the WebSocket relay).  Each WebSocket connection
carries a local mutable `userId` variable (initially `null`), an `isAlive`
flag used by the heartbeat sweep, and handlers for `message`, `pong` and
`close` events.  We model:

* JSON values (`Json`) with JavaScript truthiness (`truthy`) — needed because
  the handlers guard fields with `!msg.userId`, `!to || !payload`, `!k`;
* the connection registry `clients` as a partial map `Reg` with the `Map`
  operations `get` / `set` / `delete` used in the source;
* the `message` handler (`handleMessage`), the `close` handler
  (`wsCloseHandler`), the `pong` handler (`pongHandler`) and one tick of the
  heartbeat `setInterval` (`heartbeatTick`);
* the HTTP handlers `POST /register` (`postRegister`) and `GET /keys/:userId`
  (`getKeys`).

Connections are named by handles (`ConnId`); `dest.readyState === OPEN` is an
environment query `isOpen : ConnId → Bool`.  `JSON.parse` is abstracted: an
inbound data frame is `some msg` when it is well-formed JSON parsing to `msg`
and `none` when parsing throws (the `catch` branch).  `JSON.parse` can also
return `null`, on which `msg.type` throws a `TypeError` that is caught by the
same `catch` block, so `Json.null` input is routed to the same branch.
-/

/-- JSON values as produced by `JSON.parse`.  Numbers are modelled as
integers (no float arithmetic occurs in the source; numeric values are only
tested for truthiness and compared as map keys). -/
inductive Json where
  | null
  | bool (b : Bool)
  | num (n : Int)
  | str (s : String)
  | arr (elems : List Json)
  | obj (fields : List (String × Json))

mutual

/-- Boolean equality on JSON values. -/
def Json.beq : Json → Json → Bool
  | .null, .null => true
  | .bool a, .bool b => a == b
  | .num a, .num b => a == b
  | .str a, .str b => a == b
  | .arr a, .arr b => Json.beqList a b
  | .obj a, .obj b => Json.beqObj a b
  | _, _ => false

/-- Boolean equality on lists of JSON values. -/
def Json.beqList : List Json → List Json → Bool
  | [], [] => true
  | x :: xs, y :: ys => Json.beq x y && Json.beqList xs ys
  | _, _ => false

/-- Boolean equality on JSON object field lists. -/
def Json.beqObj : List (String × Json) → List (String × Json) → Bool
  | [], [] => true
  | (k, v) :: xs, (l, w) :: ys =>
    k == l && Json.beq v w && Json.beqObj xs ys
  | _, _ => false

end

mutual

theorem Json.beq_eq : ∀ a b : Json, Json.beq a b = true → a = b
  | .null, b, h => by cases b <;> simp_all [Json.beq]
  | .bool x, b, h => by cases b <;> simp_all [Json.beq]
  | .num x, b, h => by cases b <;> simp_all [Json.beq]
  | .str x, b, h => by cases b <;> simp_all [Json.beq]
  | .arr xs, b, h => by
    cases b <;> simp_all [Json.beq]
    exact Json.beqList_eq xs _ h
  | .obj xs, b, h => by
    cases b <;> simp_all [Json.beq]
    exact Json.beqObj_eq xs _ h

theorem Json.beqList_eq : ∀ xs ys : List Json, Json.beqList xs ys = true → xs = ys
  | [], ys, h => by cases ys <;> simp_all [Json.beqList]
  | x :: xs, [], h => by simp [Json.beqList] at h
  | x :: xs, y :: ys, h => by
    simp only [Json.beqList, Bool.and_eq_true] at h
    rw [Json.beq_eq x y h.1, Json.beqList_eq xs ys h.2]

theorem Json.beqObj_eq :
    ∀ xs ys : List (String × Json), Json.beqObj xs ys = true → xs = ys
  | [], ys, h => by cases ys <;> simp_all [Json.beqObj]
  | (k, v) :: xs, [], h => by simp [Json.beqObj] at h
  | (k, v) :: xs, (l, w) :: ys, h => by
    simp only [Json.beqObj, Bool.and_eq_true] at h
    rw [Json.beq_eq v w h.1.2, Json.beqObj_eq xs ys h.2, eq_of_beq h.1.1]

end

mutual

theorem Json.beq_refl : ∀ a : Json, Json.beq a a = true
  | .null => rfl
  | .bool x => by simp [Json.beq]
  | .num x => by simp [Json.beq]
  | .str x => by simp [Json.beq]
  | .arr xs => by simp [Json.beq, Json.beqList_refl xs]
  | .obj xs => by simp [Json.beq, Json.beqObj_refl xs]

theorem Json.beqList_refl : ∀ xs : List Json, Json.beqList xs xs = true
  | [] => rfl
  | x :: xs => by
    simp [Json.beqList, Json.beq_refl x, Json.beqList_refl xs]

theorem Json.beqObj_refl : ∀ xs : List (String × Json), Json.beqObj xs xs = true
  | [] => rfl
  | (k, v) :: xs => by
    simp [Json.beqObj, Json.beq_refl v, Json.beqObj_refl xs]

end

instance : DecidableEq Json := fun a b =>
  if h : Json.beq a b = true then
    isTrue (Json.beq_eq a b h)
  else
    isFalse (fun he => h (he ▸ Json.beq_refl a))

/-- JavaScript truthiness of a JSON value: `null`, `false`, `0` and `""` are
falsy; every array and object is truthy. -/
def truthy : Json → Bool
  | .null => false
  | .bool b => b
  | .num n => n != 0
  | .str s => s != ""
  | .arr _ => true
  | .obj _ => true

/-- Truthiness of a possibly-absent field (`undefined` is falsy). -/
def optTruthy : Option Json → Bool
  | none => false
  | some v => truthy v

/-- Property access `msg.k`: `some v` when the object has the field,
`none` (= `undefined`) when absent or when `msg` is not an object.
(`Json.null` receivers are handled before any field access, see
`handleMessage`.) -/
def getField : Json → String → Option Json
  | .obj fields, k => fields.lookup k
  | _, _ => none

/-- A connection handle (identity of a `WebSocket` object). -/
abbrev ConnId := Nat

/-- The `clients` registry: `Map` from (JSON) userId values to connections.
A JavaScript `Map` is extensionally a partial function on keys. -/
abbrev Reg := Json → Option ConnId

/-- `clients.get(u)`. -/
def regGet (r : Reg) (u : Json) : Option ConnId := r u

/-- `clients.set(u, ws)`: unconditionally overwrite the entry for `u`. -/
def regSet (r : Reg) (u : Json) (ws : ConnId) : Reg :=
  fun k => if k = u then some ws else r k

/-- `clients.delete(u)`. -/
def regDelete (r : Reg) (u : Json) : Reg :=
  fun k => if k = u then none else r k

/-- The empty registry (`new Map()`). -/
def regEmpty : Reg := fun _ => none

/-- Outbound frames, one constructor per `JSON.stringify` literal in the
source. -/
inductive OutFrame where
  | error (message : String)
  | identified (userId : Json)
  | message (payload : Json)
  | sent (dest : Json)
  | offline (dest : Json)
  | pong
deriving DecidableEq

/-- Result of running the `message` handler once: the connection's local
`userId` variable, the `clients` registry, and the frames sent (in order,
each to a destination connection). -/
structure HandleResult where
  uid : Option Json
  reg : Reg
  out : List (ConnId × OutFrame)

/-- The `ws.on('message')` handler.  `data` is `some msg` when
`JSON.parse(data.toString())` succeeds with `msg`, `none` when it throws.
`ws` is the receiving connection, `uid` its local `userId` variable, `reg`
the `clients` map, `isOpen` the `readyState === OPEN` observation. -/
def handleMessage (data : Option Json) (ws : ConnId) (uid : Option Json)
    (reg : Reg) (isOpen : ConnId → Bool) : HandleResult :=
  match data with
  | none => ⟨uid, reg, [(ws, .error "invalid JSON")]⟩
  | some .null => ⟨uid, reg, [(ws, .error "invalid JSON")]⟩
  | some msg =>
    if getField msg "type" = some (.str "identify") then
      match getField msg "userId" with
      | none => ⟨uid, reg, [(ws, .error "identify requires userId")]⟩
      | some u =>
        if truthy u then
          ⟨some u, regSet reg u ws, [(ws, .identified u)]⟩
        else
          ⟨uid, reg, [(ws, .error "identify requires userId")]⟩
    else if getField msg "type" = some (.str "send") then
      match getField msg "to", getField msg "payload" with
      | some tov, some payload =>
        if truthy tov && truthy payload then
          match regGet reg tov with
          | some dest =>
            if isOpen dest then
              ⟨uid, reg, [(dest, .message payload), (ws, .sent tov)]⟩
            else
              ⟨uid, reg, [(ws, .offline tov)]⟩
          | none => ⟨uid, reg, [(ws, .offline tov)]⟩
        else
          ⟨uid, reg, [(ws, .error "send requires to and payload")]⟩
      | _, _ => ⟨uid, reg, [(ws, .error "send requires to and payload")]⟩
    else if getField msg "type" = some (.str "ping") then
      ⟨uid, reg, [(ws, .pong)]⟩
    else
      ⟨uid, reg, [(ws, .error "unknown message type")]⟩

/-- The `ws.on('close')` handler: delete the registry entry for the local
`userId`, but only when `userId` is truthy and the stored handle is this
very connection (`clients.get(userId) === ws`). -/
def wsCloseHandler (reg : Reg) (uid : Option Json) (ws : ConnId) : Reg :=
  match uid with
  | none => reg
  | some u =>
    if truthy u ∧ regGet reg u = some ws then regDelete reg u else reg

/-- Convenience: the `identify` frame `{type: 'identify', userId: u}`. -/
def identifyFrame (u : String) : Json :=
  .obj [("type", .str "identify"), ("userId", .str u)]

/-- Convenience: the `send` frame `{type: 'send', to: u, payload: p}`. -/
def sendFrame (u : String) (p : Json) : Json :=
  .obj [("type", .str "send"), ("to", .str u), ("payload", p)]

/-! ### Heartbeat (liveness monitor) -/

/-- Per-connection state observed by the heartbeat sweep: the `isAlive`
flag, whether the connection has been terminated, its local `userId`, and
the registry. -/
structure HBState where
  alive : Bool
  terminated : Bool
  uid : Option Json
  reg : Reg

/-- The `ws.on('pong')` handler: `ws.isAlive = true`. -/
def pongHandler (s : HBState) : HBState := { s with alive := true }

/-- One tick of the `setInterval` sweep, for one connection: a terminated
connection is no longer in `wss.clients`; otherwise, if `isAlive === false`
terminate it (which fires the `close` event and thus `wsCloseHandler`),
else clear `isAlive` and send a ping. -/
def heartbeatTick (ws : ConnId) (s : HBState) : HBState :=
  if s.terminated then s
  else if s.alive = false then
    { s with terminated := true, reg := wsCloseHandler s.reg s.uid ws }
  else
    { s with alive := false }

/-! ### HTTP key endpoints -/

/-- An HTTP response: status code and JSON body (`res.json`). -/
structure HttpResp where
  status : Nat
  body : Json
deriving DecidableEq

/-- The *own* data properties of the `publicKeys` object, userId → base64
key string.  `publicKeys` is the plain object literal of `publicKeys = ...`
on line 18 of the source, so a property *read* `publicKeys[p]` falls back
to the `Object.prototype` it inherits from (see `objGet`), and a property
*write* to `"__proto__"` hits the inherited accessor instead of creating
an own property (see `storeSet`). -/
abbrev KeyStore := String → Option String

/-- The property names every plain JavaScript object inherits from
`Object.prototype` (Node's standard set). -/
def objectProtoProps : List String :=
  ["constructor", "toString", "toLocaleString", "valueOf", "hasOwnProperty",
   "isPrototypeOf", "propertyIsEnumerable", "__proto__", "__defineGetter__",
   "__defineSetter__", "__lookupGetter__", "__lookupSetter__"]

/-- The possible results of the property read `publicKeys[p]`: an own data
property holding a stored key string; an inherited `Object.prototype`
method (a function — always truthy, omitted by `JSON.stringify`);
`Object.prototype` itself, read through the inherited `__proto__` getter
(always truthy, serialized by `JSON.stringify` as the empty object); or
`undefined`. -/
inductive PropRead where
  | str (s : String)
  | protoFn
  | protoObj
  | undefined
deriving DecidableEq

/-- The property read `publicKeys[p]`: own property first, then the
prototype chain, else `undefined`. -/
def objGet (s : KeyStore) (p : String) : PropRead :=
  match s p with
  | some v => .str v
  | none =>
    if p = "__proto__" then .protoObj
    else if p ∈ objectProtoProps then .protoFn
    else .undefined

/-- JavaScript truthiness of a property-read result (`!k`): functions and
objects are truthy, `undefined` and `""` falsy. -/
def truthyProp : PropRead → Bool
  | .str v => v != ""
  | .protoFn => true
  | .protoObj => true
  | .undefined => false

/-- What `JSON.stringify` (inside `res.json`) makes of the value: strings
survive, functions are omitted, `Object.prototype` serializes as `\x7b\x7d`
(its properties are non-enumerable). -/
def jsonOfProp : PropRead → Option Json
  | .str v => some (.str v)
  | .protoFn => none
  | .protoObj => some (.obj [])
  | .undefined => none

/-- The property write `publicKeys[u] = k` with a string `k`: assigning to
`"__proto__"` invokes the inherited accessor, which silently ignores
non-object values — no own property is created; every other name gets an
own data property (shadowing any inherited one). -/
def storeSet (s : KeyStore) (u k : String) : KeyStore :=
  if u = "__proto__" then s
  else fun x => if x = u then some k else s x

/-- The `POST /register` handler.  Body fields may be absent (`none`); the
guard is JavaScript truthiness (`!userId || !publicKey`), which for string
fields means absent or empty.  Returns the updated store and the response. -/
def postRegister (s : KeyStore) (userId publicKey : Option String) :
    KeyStore × HttpResp :=
  match userId, publicKey with
  | some u, some k =>
    if u = "" ∨ k = "" then
      (s, ⟨400, .obj [("error", .str "userId and publicKey required")]⟩)
    else
      (storeSet s u k, ⟨200, .obj [("ok", .bool true)]⟩)
  | _, _ => (s, ⟨400, .obj [("error", .str "userId and publicKey required")]⟩)

/-- The `GET /keys/:userId` handler: `const k = publicKeys[userId];
if (!k) 404 {error: "not found"} else res.json({userId, publicKey: k})`.
The read consults the prototype chain and the truthiness guard sees
inherited functions/objects as truthy. -/
def getKeys (s : KeyStore) (userId : String) : HttpResp :=
  match truthyProp (objGet s userId), jsonOfProp (objGet s userId) with
  | false, _ => ⟨404, .obj [("error", .str "not found")]⟩
  | true, some v => ⟨200, .obj [("userId", .str userId), ("publicKey", v)]⟩
  | true, none => ⟨200, .obj [("userId", .str userId)]⟩

/-- The own-property table produced by a sequence of `POST /register`
requests (each a pair of optional body fields), starting from the empty
object literal. -/
def applyPosts (reqs : List (Option String × Option String)) : KeyStore :=
  reqs.foldl (fun s p => (postRegister s p.1 p.2).1) (fun _ => none)

/-! ### Registry lemmas -/

/-- `Map.get` after `Map.set` on the same key. -/
theorem regGet_regSet_self (r : Reg) (u : Json) (c : ConnId) :
    regGet (regSet r u c) u = some c := by
  simp [regGet, regSet]

/-- `Map.set` leaves other keys unchanged. -/
theorem regGet_regSet_of_ne (r : Reg) {u v : Json} (c : ConnId) (h : v ≠ u) :
    regGet (regSet r u c) v = regGet r v := by
  simp [regGet, regSet, h]

/-- `Map.get` after `Map.delete` on the same key. -/
theorem regGet_regDelete_self (r : Reg) (u : Json) :
    regGet (regDelete r u) u = none := by
  simp [regGet, regDelete]

/-- `Map.delete` leaves other keys unchanged. -/
theorem regGet_regDelete_of_ne (r : Reg) {u v : Json} (h : v ≠ u) :
    regGet (regDelete r u) v = regGet r v := by
  simp [regGet, regDelete, h]

/-- Every connection is reported open (an environment where no destination
has closed); used to instantiate `isOpen` in concrete scenarios. -/
def allOpen : ConnId → Bool := fun _ => true

/-- Processing an `identify` frame with a non-empty userId string, in any
state: rebind the local `userId`, overwrite the registry entry, reply
`identified`. -/
theorem identify_step (u : String) (ws : ConnId) (uid : Option Json)
    (r : Reg) (isOpen : ConnId → Bool) (hu : u ≠ "") :
    handleMessage (some (identifyFrame u)) ws uid r isOpen
      = ⟨some (.str u), regSet r (.str u) ws, [(ws, .identified (.str u))]⟩ := by
  have ht : truthy (.str u) = true := by simp [truthy, hu]
  have hl : List.lookup "userId"
      [("type", Json.str "identify"), ("userId", Json.str u)]
      = some (Json.str u) := rfl
  simp [handleMessage, identifyFrame, getField, hl, ht]

/-- Unfolding of the close handler when the local `userId` is set. -/
theorem wsCloseHandler_some (r : Reg) (u : Json) (ws : ConnId) :
    wsCloseHandler r (some u) ws
      = if truthy u ∧ regGet r u = some ws then regDelete r u else r := rfl

/-! ### Claim theorems -/

/-- C1.  Guarded unregister: after `register(U, A)` then `register(U, B)`
with `A ≠ B`, `lookup(U) = B`, and running connection A's close handler
(with its local userId `U`) does not remove B's registration:
`lookup(U)` is still `B` afterwards. -/
theorem c1_guarded_unregister (r : Reg) (u : Json) (a b : ConnId)
    (hab : a ≠ b) :
    regGet (regSet (regSet r u a) u b) u = some b
    ∧ regGet (wsCloseHandler (regSet (regSet r u a) u b) (some u) a) u
        = some b := by
  have hb : regGet (regSet (regSet r u a) u b) u = some b :=
    regGet_regSet_self ..
  refine ⟨hb, ?_⟩
  rw [wsCloseHandler_some, if_neg, hb]
  intro h
  rw [hb] at h
  exact hab (Option.some.inj h.2).symm

/-- C1 witness: concrete instance with `U = "alice"`, `A = 1`, `B = 2`. -/
theorem c1_witness :
    regGet (regSet (regSet regEmpty (Json.str "alice") 1)
        (Json.str "alice") 2) (Json.str "alice") = some 2
    ∧ regGet (wsCloseHandler (regSet (regSet regEmpty (Json.str "alice") 1)
        (Json.str "alice") 2) (some (Json.str "alice")) 1)
        (Json.str "alice") = some 2 :=
  c1_guarded_unregister regEmpty (Json.str "alice") 1 2 (by decide)

/-- C7.  An inbound frame that is not well-formed JSON (`JSON.parse`
throws) produces exactly one `error{message: "invalid JSON"}` frame to the
sender, and leaves the protocol state and the registry unchanged; the
handler never closes the connection. -/
theorem c7_invalid_json (ws : ConnId) (uid : Option Json) (r : Reg)
    (isOpen : ConnId → Bool) :
    handleMessage none ws uid r isOpen
      = ⟨uid, r, [(ws, .error "invalid JSON")]⟩ := rfl

/-- A concrete opaque payload of the conventional shape
`{ciphertext, nonce, sender}`; used in concrete scenarios. -/
def payload0 : Json :=
  .obj [("ciphertext", .str "Zm9v"), ("nonce", .str "YmFy"),
        ("sender", .str "alice")]

/-- C2 counterexample.  The recipient `"bob"` is registered (to connection
2) and open, yet the `send` frame with the well-formed JSON payload `false`
is answered with an `error` frame and nothing is delivered: the handler's
JavaScript truthiness guard `!to || !payload` rejects falsy payloads, so
the claim does not hold for every payload `P`. -/
theorem c2_counterexample :
    (handleMessage (some (sendFrame "bob" (Json.bool false))) 1 none
        (regSet regEmpty (Json.str "bob") 2) allOpen).out
      = [(1, OutFrame.error "send requires to and payload")]
    ∧ regGet (regSet regEmpty (Json.str "bob") 2) (Json.str "bob") = some 2
    ∧ (handleMessage (some (sendFrame "bob" (Json.bool false))) 1 none
        (regSet regEmpty (Json.str "bob") 2) allOpen).out
      ≠ [(2, OutFrame.message (Json.bool false)),
         (1, OutFrame.sent (Json.str "bob"))] := by
  refine ⟨by decide, by decide, by decide⟩

/-- C2 amended.  For every *truthy* payload `P` and non-empty userId `U`
(userIds registered through `identify` are necessarily truthy), a
`send{to: U, payload: P}` from any sender in any protocol state, when `U`
is registered to an open connection `d`, delivers exactly one
`message{payload: P}` frame to `d` and exactly one `sent{to: U}` frame to
the sender, with `P` forwarded unchanged; state and registry are untouched. -/
theorem c2_send_delivers (u : String) (p : Json) (ws d : ConnId)
    (uid : Option Json) (r : Reg) (isOpen : ConnId → Bool)
    (hu : u ≠ "") (hp : truthy p = true)
    (hreg : regGet r (.str u) = some d) (hopen : isOpen d = true) :
    handleMessage (some (sendFrame u p)) ws uid r isOpen
      = ⟨uid, r, [(d, .message p), (ws, .sent (.str u))]⟩ := by
  have ht : truthy (.str u) = true := by simp [truthy, hu]
  have hto : List.lookup "to"
      [("type", Json.str "send"), ("to", Json.str u), ("payload", p)]
      = some (Json.str u) := rfl
  have hpl : List.lookup "payload"
      [("type", Json.str "send"), ("to", Json.str u), ("payload", p)]
      = some p := rfl
  simp [handleMessage, sendFrame, getField, hto, hpl, ht, hp, hreg, hopen]

/-- C2 witness: Alice (connection 1, still unidentified) relays `payload0`
to registered open Bob (connection 2). -/
theorem c2_witness :
    handleMessage (some (sendFrame "bob" payload0)) 1 none
        (regSet regEmpty (Json.str "bob") 2) allOpen
      = ⟨none, regSet regEmpty (Json.str "bob") 2,
         [(2, .message payload0), (1, .sent (Json.str "bob"))]⟩ :=
  c2_send_delivers "bob" payload0 1 2 none
    (regSet regEmpty (Json.str "bob") 2) allOpen
    (by decide) (by decide) (by decide) rfl

/-- C3 counterexample.  `U = ""` is a userId string that is not registered
(the registry is empty), yet a `send` to it with a truthy payload is
answered with an `error` frame, not the `offline{to: U}` frame the claim
requires: the truthiness guard `!to` rejects the empty destination before
the registry is consulted. -/
theorem c3_counterexample :
    (handleMessage (some (sendFrame "" payload0)) 1 none regEmpty
        allOpen).out
      = [(1, OutFrame.error "send requires to and payload")]
    ∧ regGet regEmpty (Json.str "") = none
    ∧ (handleMessage (some (sendFrame "" payload0)) 1 none regEmpty
        allOpen).out ≠ [(1, OutFrame.offline (Json.str ""))] := by
  refine ⟨by decide, by decide, by decide⟩

/-- C3 amended.  For every *non-empty* userId `U` and *truthy* payload `P`,
a `send{to: U, payload: P}` when `U` is unregistered, or registered to a
connection that is not open, emits exactly one `offline{to: U}` frame to
the sender and delivers no `message` frame to anyone; state and registry
are untouched. -/
theorem c3_send_offline (u : String) (p : Json) (ws : ConnId)
    (uid : Option Json) (r : Reg) (isOpen : ConnId → Bool)
    (hu : u ≠ "") (hp : truthy p = true)
    (hmiss : ∀ d, regGet r (.str u) = some d → isOpen d = false) :
    handleMessage (some (sendFrame u p)) ws uid r isOpen
      = ⟨uid, r, [(ws, .offline (.str u))]⟩ := by
  have ht : truthy (.str u) = true := by simp [truthy, hu]
  have hto : List.lookup "to"
      [("type", Json.str "send"), ("to", Json.str u), ("payload", p)]
      = some (Json.str u) := rfl
  have hpl : List.lookup "payload"
      [("type", Json.str "send"), ("to", Json.str u), ("payload", p)]
      = some p := rfl
  cases hd : regGet r (.str u) with
  | none => simp [handleMessage, sendFrame, getField, hto, hpl, ht, hp, hd]
  | some d =>
    have hcl : isOpen d = false := hmiss d hd
    simp [handleMessage, sendFrame, getField, hto, hpl, ht, hp, hd, hcl]

/-- C3 witness: a `send` to the unregistered userId `"carol"` is answered
`offline{to: "carol"}`. -/
theorem c3_witness :
    handleMessage (some (sendFrame "carol" payload0)) 1 none regEmpty
        allOpen
      = ⟨none, regEmpty, [(1, .offline (Json.str "carol"))]⟩ :=
  c3_send_offline "carol" payload0 1 none regEmpty allOpen
    (by decide) (by decide)
    (fun d h => by simp [regGet, regEmpty] at h)

/-- Frames whose `type` is not `'identify'` never change the connection's
local `userId` variable: only the identify branch assigns it. -/
theorem handleMessage_uid_frozen (data : Option Json) (ws : ConnId)
    (uid : Option Json) (r : Reg) (isOpen : ConnId → Bool)
    (h : ∀ msg, data = some msg →
      getField msg "type" ≠ some (.str "identify")) :
    (handleMessage data ws uid r isOpen).uid = uid := by
  cases data with
  | none => rfl
  | some msg =>
    cases msg with
    | null => rfl
    | bool b => rfl
    | num n => rfl
    | str s => rfl
    | arr xs => rfl
    | obj fields =>
      simp only [handleMessage]
      rw [if_neg (h _ rfl)]
      repeat' split
      all_goals rfl

/-- Reduction of the handler on an object frame whose `type` is
`'identify'`. -/
theorem handleMessage_identify_obj (fields : List (String × Json))
    (ws : ConnId) (uid : Option Json) (r : Reg) (isOpen : ConnId → Bool)
    (htype : getField (.obj fields) "type" = some (.str "identify")) :
    handleMessage (some (.obj fields)) ws uid r isOpen
      = match getField (.obj fields) "userId" with
        | none => ⟨uid, r, [(ws, .error "identify requires userId")]⟩
        | some v =>
          if truthy v then
            ⟨some v, regSet r v ws, [(ws, .identified v)]⟩
          else
            ⟨uid, r, [(ws, .error "identify requires userId")]⟩ := by
  simp only [handleMessage]
  rw [if_pos htype]

/-- C4 counterexample.  A connection in state `Identified("alice")` that
receives `identify{userId: "bob"}` is rebound: its local `userId` becomes
`"bob"`, so a subsequently received frame *does* change the binding,
contrary to the claim that `Identified(userId)` is terminal until close. -/
theorem c4_counterexample :
    (handleMessage (some (identifyFrame "bob")) 1 (some (Json.str "alice"))
        regEmpty allOpen).uid = some (Json.str "bob")
    ∧ some (Json.str "bob") ≠ some (Json.str "alice") := by
  refine ⟨by decide, by decide⟩

/-- C4 amended.  Once a connection is `Identified` it never transitions
back to `Unidentified` (the local `userId` never returns to `null`), and
the binding changes only when an `identify` frame with a truthy `userId`
field is received, in which case it is rebound to that userId; every other
frame leaves the binding unchanged. -/
theorem c4_identified_persists (data : Option Json) (ws : ConnId)
    (u : Json) (r : Reg) (isOpen : ConnId → Bool) :
    (handleMessage data ws (some u) r isOpen).uid ≠ none
    ∧ ((handleMessage data ws (some u) r isOpen).uid = some u
       ∨ ∃ msg v, data = some msg
           ∧ getField msg "type" = some (.str "identify")
           ∧ getField msg "userId" = some v ∧ truthy v = true
           ∧ (handleMessage data ws (some u) r isOpen).uid = some v) := by
  by_cases hid : ∀ msg, data = some msg →
      getField msg "type" ≠ some (Json.str "identify")
  · have hfr := handleMessage_uid_frozen data ws (some u) r isOpen hid
    rw [hfr]
    exact ⟨Option.noConfusion, Or.inl rfl⟩
  · push_neg at hid
    obtain ⟨msg, hdata, htype⟩ := hid
    subst hdata
    cases msg with
    | obj fields =>
      rw [handleMessage_identify_obj fields ws (some u) r isOpen htype]
      cases hu' : getField (.obj fields) "userId" with
      | none => exact ⟨Option.noConfusion, Or.inl rfl⟩
      | some v =>
        by_cases hv : truthy v = true
        · refine ⟨by simp [hv], Or.inr ⟨.obj fields, v, rfl, htype, hu', hv,
            by simp [hv]⟩⟩
        · exact ⟨by simp [hv], Or.inl (by simp [hv])⟩
    | null => exact absurd htype (by simp [getField])
    | bool b => exact absurd htype (by simp [getField])
    | num n => exact absurd htype (by simp [getField])
    | str s => exact absurd htype (by simp [getField])
    | arr xs => exact absurd htype (by simp [getField])

/-- C5 counterexample.  Connection 1 identifies as `"u1"` and then as
`"u2"`; the registry ends up with both entries storing connection 1.  When
connection 1 closes, the `"u1"` entry still stores that very connection,
yet it is *not* removed — the close handler deletes only the entry for the
connection's current local userId (`"u2"`).  So not every entry whose
stored handle is the closing connection is removed. -/
theorem c5_counterexample :
    regGet (handleMessage (some (identifyFrame "u2")) 1
        (handleMessage (some (identifyFrame "u1")) 1 none regEmpty
          allOpen).uid
        (handleMessage (some (identifyFrame "u1")) 1 none regEmpty
          allOpen).reg allOpen).reg (Json.str "u1") = some 1
    ∧ regGet (wsCloseHandler
        (handleMessage (some (identifyFrame "u2")) 1
          (handleMessage (some (identifyFrame "u1")) 1 none regEmpty
            allOpen).uid
          (handleMessage (some (identifyFrame "u1")) 1 none regEmpty
            allOpen).reg allOpen).reg
        (handleMessage (some (identifyFrame "u2")) 1
          (handleMessage (some (identifyFrame "u1")) 1 none regEmpty
            allOpen).uid
          (handleMessage (some (identifyFrame "u1")) 1 none regEmpty
            allOpen).reg allOpen).uid 1) (Json.str "u1") = some 1 := by
  refine ⟨by decide, by decide⟩

/-- C5 amended.  When a connection closes, at most one registry entry is
removed: the one for the connection's *current* local userId, and only if
it still stores this connection.  Entries under every other userId — even
ones whose stored handle is the closing connection, left over from earlier
`identify` frames — are untouched. -/
theorem c5_close_removes_current (r : Reg) (u : Json) (ws : ConnId) :
    (∀ v, v ≠ u → regGet (wsCloseHandler r (some u) ws) v = regGet r v)
    ∧ (truthy u = true → regGet r u = some ws →
        regGet (wsCloseHandler r (some u) ws) u = none) := by
  constructor
  · intro v hv
    rw [wsCloseHandler_some]
    split
    · exact regGet_regDelete_of_ne r hv
    · rfl
  · intro ht hr
    rw [wsCloseHandler_some, if_pos ⟨ht, hr⟩]
    exact regGet_regDelete_self r u

/-- C5 witness: with `{"a" → 5}` in the registry and connection 5 closing
while identified as `"a"`, the unrelated key `"b"` is untouched and the
`"a"` entry is removed. -/
theorem c5_witness :
    regGet (wsCloseHandler (regSet regEmpty (Json.str "a") 5)
        (some (Json.str "a")) 5) (Json.str "b")
      = regGet (regSet regEmpty (Json.str "a") 5) (Json.str "b")
    ∧ regGet (wsCloseHandler (regSet regEmpty (Json.str "a") 5)
        (some (Json.str "a")) 5) (Json.str "a") = none :=
  ⟨(c5_close_removes_current (regSet regEmpty (Json.str "a") 5)
      (Json.str "a") 5).1 (Json.str "b") (by decide),
   (c5_close_removes_current (regSet regEmpty (Json.str "a") 5)
      (Json.str "a") 5).2 (by decide) (by decide)⟩

/-- C10.  A single connection `c` that identifies as `u1` and then as a
different `u2` (with no intervening event touching the registry) holds two
registry entries at once: `lookup(u1) = c` and `lookup(u2) = c`.  When `c`
then closes, only the `u2` entry is removed; the `u1` entry persists,
still pointing at the closed connection. -/
theorem c10_multi_entries (u1 u2 : String) (c : ConnId) (r : Reg)
    (isOpen : ConnId → Bool) (h12 : u1 ≠ u2) (h1 : u1 ≠ "")
    (h2 : u2 ≠ "") :
    regGet (handleMessage (some (identifyFrame u2)) c
        (handleMessage (some (identifyFrame u1)) c none r isOpen).uid
        (handleMessage (some (identifyFrame u1)) c none r isOpen).reg
        isOpen).reg (Json.str u1) = some c
    ∧ regGet (handleMessage (some (identifyFrame u2)) c
        (handleMessage (some (identifyFrame u1)) c none r isOpen).uid
        (handleMessage (some (identifyFrame u1)) c none r isOpen).reg
        isOpen).reg (Json.str u2) = some c
    ∧ regGet (wsCloseHandler
        (handleMessage (some (identifyFrame u2)) c
          (handleMessage (some (identifyFrame u1)) c none r isOpen).uid
          (handleMessage (some (identifyFrame u1)) c none r isOpen).reg
          isOpen).reg
        (handleMessage (some (identifyFrame u2)) c
          (handleMessage (some (identifyFrame u1)) c none r isOpen).uid
          (handleMessage (some (identifyFrame u1)) c none r isOpen).reg
          isOpen).uid c) (Json.str u2) = none
    ∧ regGet (wsCloseHandler
        (handleMessage (some (identifyFrame u2)) c
          (handleMessage (some (identifyFrame u1)) c none r isOpen).uid
          (handleMessage (some (identifyFrame u1)) c none r isOpen).reg
          isOpen).reg
        (handleMessage (some (identifyFrame u2)) c
          (handleMessage (some (identifyFrame u1)) c none r isOpen).uid
          (handleMessage (some (identifyFrame u1)) c none r isOpen).reg
          isOpen).uid c) (Json.str u1) = some c := by
  have hne : Json.str u1 ≠ Json.str u2 := by simp [h12]
  rw [identify_step u1 c none r isOpen h1,
    identify_step u2 c (some (Json.str u1)) (regSet r (Json.str u1) c)
      isOpen h2]
  have g1 : regGet (regSet (regSet r (Json.str u1) c) (Json.str u2) c)
      (Json.str u1) = some c := by
    rw [regGet_regSet_of_ne _ _ hne]
    exact regGet_regSet_self ..
  have g2 : regGet (regSet (regSet r (Json.str u1) c) (Json.str u2) c)
      (Json.str u2) = some c := regGet_regSet_self ..
  have ht2 : truthy (Json.str u2) = true := by simp [truthy, h2]
  refine ⟨g1, g2, ?_, ?_⟩
  · rw [wsCloseHandler_some, if_pos ⟨ht2, g2⟩]
    exact regGet_regDelete_self ..
  · rw [wsCloseHandler_some, if_pos ⟨ht2, g2⟩,
      regGet_regDelete_of_ne _ hne]
    exact g1

/-- C10 witness: connection 1 identifies as `"alice"` then `"bob"` and
closes. -/
theorem c10_witness :
    regGet (handleMessage (some (identifyFrame "bob")) 1
        (handleMessage (some (identifyFrame "alice")) 1 none regEmpty
          allOpen).uid
        (handleMessage (some (identifyFrame "alice")) 1 none regEmpty
          allOpen).reg allOpen).reg (Json.str "alice") = some 1
    ∧ regGet (handleMessage (some (identifyFrame "bob")) 1
        (handleMessage (some (identifyFrame "alice")) 1 none regEmpty
          allOpen).uid
        (handleMessage (some (identifyFrame "alice")) 1 none regEmpty
          allOpen).reg allOpen).reg (Json.str "bob") = some 1
    ∧ regGet (wsCloseHandler
        (handleMessage (some (identifyFrame "bob")) 1
          (handleMessage (some (identifyFrame "alice")) 1 none regEmpty
            allOpen).uid
          (handleMessage (some (identifyFrame "alice")) 1 none regEmpty
            allOpen).reg allOpen).reg
        (handleMessage (some (identifyFrame "bob")) 1
          (handleMessage (some (identifyFrame "alice")) 1 none regEmpty
            allOpen).uid
          (handleMessage (some (identifyFrame "alice")) 1 none regEmpty
            allOpen).reg allOpen).uid 1) (Json.str "bob") = none
    ∧ regGet (wsCloseHandler
        (handleMessage (some (identifyFrame "bob")) 1
          (handleMessage (some (identifyFrame "alice")) 1 none regEmpty
            allOpen).uid
          (handleMessage (some (identifyFrame "alice")) 1 none regEmpty
            allOpen).reg allOpen).reg
        (handleMessage (some (identifyFrame "bob")) 1
          (handleMessage (some (identifyFrame "alice")) 1 none regEmpty
            allOpen).uid
          (handleMessage (some (identifyFrame "alice")) 1 none regEmpty
            allOpen).reg allOpen).uid 1) (Json.str "alice") = some 1 :=
  c10_multi_entries "alice" "bob" 1 regEmpty allOpen (by decide)
    (by decide) (by decide)

/-- C6.  In state `Unidentified` (local `userId` is `null`), an `identify`
frame whose `userId` field is absent or the empty string is answered with
exactly one `error{message: "identify requires userId"}` frame; the
connection stays `Unidentified` and the registry gains no entry. -/
theorem c6_identify_invalid (msg : Json) (ws : ConnId) (r : Reg)
    (isOpen : ConnId → Bool)
    (htype : getField msg "type" = some (.str "identify"))
    (huid : getField msg "userId" = none
      ∨ getField msg "userId" = some (.str "")) :
    handleMessage (some msg) ws none r isOpen
      = ⟨none, r, [(ws, .error "identify requires userId")]⟩ := by
  cases msg with
  | obj fields =>
    rw [handleMessage_identify_obj fields ws none r isOpen htype]
    rcases huid with h | h <;> (rw [h]; try rfl)
  | null => exact absurd htype (by simp [getField])
  | bool b => exact absurd htype (by simp [getField])
  | num n => exact absurd htype (by simp [getField])
  | str s => exact absurd htype (by simp [getField])
  | arr xs => exact absurd htype (by simp [getField])

/-- C6 witness: `identify` with no `userId` field at all. -/
theorem c6_witness :
    handleMessage (some (Json.obj [("type", Json.str "identify")])) 1 none
        regEmpty allOpen
      = ⟨none, regEmpty, [(1, .error "identify requires userId")]⟩ :=
  c6_identify_invalid (Json.obj [("type", Json.str "identify")]) 1
    regEmpty allOpen rfl (Or.inl rfl)

/-- C8.  A connection whose `isAlive` flag is set (it just responded — the
`pong` handler sets `isAlive = true` — or was just accepted) and that never
responds to the following liveness probes is not terminated on the first
tick (which clears the flag and sends a probe) but is terminated on the
second tick; the termination fires the close handling, which removes its
registry entry if that entry exists and still stores this connection. -/
theorem c8_liveness_two_ticks (ws : ConnId) (s : HBState)
    (halive : s.alive = true) (hterm : s.terminated = false) :
    (heartbeatTick ws s).terminated = false
    ∧ (heartbeatTick ws (heartbeatTick ws s)).terminated = true
    ∧ (heartbeatTick ws (heartbeatTick ws s)).reg
        = wsCloseHandler s.reg s.uid ws
    ∧ ∀ u, s.uid = some u → truthy u = true → regGet s.reg u = some ws →
        regGet (heartbeatTick ws (heartbeatTick ws s)).reg u = none := by
  have h1 : heartbeatTick ws s = { s with alive := false } := by
    simp [heartbeatTick, hterm, halive]
  have h2 : heartbeatTick ws { s with alive := false }
      = ⟨false, true, s.uid, wsCloseHandler s.reg s.uid ws⟩ := by
    simp [heartbeatTick, hterm]
  rw [h1, h2]
  refine ⟨hterm, rfl, rfl, ?_⟩
  intro u hu htr hr
  rw [hu, wsCloseHandler_some, if_pos ⟨htr, hr⟩]
  exact regGet_regDelete_self ..

/-- C8 witness: connection 3 identified as `"a"` and registered, alive at
the start, never responding. -/
theorem c8_witness :
    (heartbeatTick 3 ⟨true, false, some (Json.str "a"),
        regSet regEmpty (Json.str "a") 3⟩).terminated = false
    ∧ (heartbeatTick 3 (heartbeatTick 3 ⟨true, false, some (Json.str "a"),
        regSet regEmpty (Json.str "a") 3⟩)).terminated = true
    ∧ regGet (heartbeatTick 3 (heartbeatTick 3
        ⟨true, false, some (Json.str "a"),
          regSet regEmpty (Json.str "a") 3⟩)).reg (Json.str "a") = none :=
  ⟨(c8_liveness_two_ticks 3 _ rfl rfl).1,
   (c8_liveness_two_ticks 3 _ rfl rfl).2.1,
   (c8_liveness_two_ticks 3 _ rfl rfl).2.2.2 (Json.str "a") rfl (by decide)
     (by decide)⟩

/-- `postRegister` never stores an empty key: its truthiness guard rejects
empty `userId` and empty `publicKey`. -/
theorem postRegister_stored_nonempty (s : KeyStore)
    (h : ∀ x k, s x = some k → k ≠ "") (u pk : Option String) :
    ∀ x k, (postRegister s u pk).1 x = some k → k ≠ "" := by
  intro x k hx
  cases u with
  | none => exact h x k hx
  | some us =>
    cases pk with
    | none => exact h x k hx
    | some ks =>
      by_cases hg : us = "" ∨ ks = ""
      · simp only [postRegister, if_pos hg] at hx
        exact h x k hx
      · have hks : ks ≠ "" := fun hk => hg (Or.inr hk)
        simp only [postRegister, if_neg hg, storeSet] at hx
        by_cases hup : us = "__proto__"
        · rw [if_pos hup] at hx
          exact h x k hx
        · rw [if_neg hup] at hx
          by_cases hxu : x = us
          · rw [if_pos hxu] at hx
            exact (Option.some.inj hx) ▸ hks
          · rw [if_neg hxu] at hx
            exact h x k hx

/-- Every key stored through any sequence of `POST /register` requests is
non-empty. -/
theorem applyPosts_stored_nonempty
    (reqs : List (Option String × Option String)) :
    ∀ x k, applyPosts reqs x = some k → k ≠ "" := by
  have main : ∀ (l : List (Option String × Option String)) (s : KeyStore),
      (∀ x k, s x = some k → k ≠ "") →
      ∀ x k, (l.foldl (fun s p => (postRegister s p.1 p.2).1) s) x = some k
        → k ≠ "" := by
    intro l
    induction l with
    | nil => exact fun s hs => hs
    | cons p rest ih =>
      intro s hs
      exact ih _ (postRegister_stored_nonempty s hs p.1 p.2)
  exact main reqs (fun _ => none) (fun x k hx => Option.noConfusion hx)

/-- C9 counterexample.  `"constructor"` is a userId string for which no
key has ever been stored (the store has seen no `POST /register` at all),
yet `GET /keys/constructor` responds `200` — the property read
`publicKeys["constructor"]` finds the truthy inherited
`Object.prototype.constructor`, so the `!k` guard does not fire; the
function is omitted by `JSON.stringify`, so the body is just `{userId}`.
The claimed `404 {error: "not found"}` is not produced. -/
theorem c9_counterexample :
    applyPosts [] "constructor" = none
    ∧ getKeys (applyPosts []) "constructor"
      = ⟨200, Json.obj [("userId", Json.str "constructor")]⟩
    ∧ getKeys (applyPosts []) "constructor"
      ≠ ⟨404, Json.obj [("error", Json.str "not found")]⟩ := by
  refine ⟨by decide, by decide, by decide⟩

/-- C9 amended.  Against the key table built by any sequence of
`POST /register` requests: a userId for which no key was stored gets `404
{error: "not found"}` *provided it is not one of the property names
inherited from `Object.prototype`* (`constructor`, `toString`, ...,
`__proto__` — for those the inherited value is truthy and the response is
`200` without a stored key); and a userId with a stored key `k` gets `200
{userId, publicKey: k}` (stored keys are necessarily non-empty, so the
`!k` guard cannot misfire, and an own property shadows any inherited
one). -/
theorem c9_get_keys (reqs : List (Option String × Option String))
    (u : String) :
    (applyPosts reqs u = none → u ∉ objectProtoProps →
      getKeys (applyPosts reqs) u
        = ⟨404, .obj [("error", .str "not found")]⟩)
    ∧ (∀ k, applyPosts reqs u = some k →
      getKeys (applyPosts reqs) u
        = ⟨200, .obj [("userId", .str u), ("publicKey", .str k)]⟩) := by
  constructor
  · intro h hnp
    have hup : u ≠ "__proto__" := fun he => hnp (he ▸ (by decide :
      "__proto__" ∈ objectProtoProps))
    simp [getKeys, objGet, h, hup, hnp, truthyProp]
  · intro k hk
    have hk' : k ≠ "" := applyPosts_stored_nonempty reqs u k hk
    have hb : (k != "") = true := by simp [hk']
    simp [getKeys, objGet, hk, truthyProp, jsonOfProp, hb]

/-- C9 witness: after `POST /register {userId: "alice", publicKey: "QUJD"}`,
`GET /keys/bob` is 404 and `GET /keys/alice` is 200. -/
theorem c9_witness :
    getKeys (applyPosts [(some "alice", some "QUJD")]) "bob"
      = ⟨404, Json.obj [("error", Json.str "not found")]⟩
    ∧ getKeys (applyPosts [(some "alice", some "QUJD")]) "alice"
      = ⟨200, Json.obj [("userId", Json.str "alice"),
          ("publicKey", Json.str "QUJD")]⟩ :=
  ⟨(c9_get_keys [(some "alice", some "QUJD")] "bob").1 (by decide)
     (by decide),
   (c9_get_keys [(some "alice", some "QUJD")] "alice").2 "QUJD"
     (by decide)⟩
